import Mathlib

set_option maxRecDepth 10000

/-!
Verification of the STUN binding client in `stun_c/StunClient.go`.

The embedding below follows the Go source function by function. Bytes are
natural numbers (each in `0..255` on the wire); Go slices of the fixed
1280-byte receive buffer are modelled with an explicit underlying array,
offset and length so that Go's slice-expression bounds rules (panic when an
index exceeds the permitted bound, capacity-based upper bounds for
two-index slice expressions) are reproduced exactly.
-/

namespace StunC

/-- The transport address the client builds: `net.UDPAddr` restricted to the
two fields the code sets, the raw `IP` byte slice and the integer `Port`. -/
structure UDPAddr where
  ip : List Nat
  port : Nat
deriving DecidableEq, Repr

/-- The error values the Go client can produce.

* `genRandomError`, `makeHeaderError`, `messageSendError` are the nominal
  error structs `Gen_Random_Error`, `Make_Header_Error`, `Message_Send_Error`.
* `sendError` / `recvError` stand for the opaque error values an external
  `WriteToUDP` / `ReadFromUDP` call can return.
* `notSuccessResponse` / `unknownTransactionId` carry the byte slices the
  corresponding Go structs carry (`header`,`body` and `their_id`,`our_id`).
* `cannotParseEmptyBody` is `errors.New("Cannot parse empty body.")` from
  `getSingleAttribute`; `emptyAttribute` is
  `errors.New("STUN Client: Empty attribute recieved")` from the two address
  parsers; `unexpectedEOF` is `io.ErrUnexpectedEOF`, the value `binary.Read`
  returns when the buffer holds some but not all of the bytes it needs
  (the same error value at every such call site). -/
inductive StunError
  | genRandomError
  | makeHeaderError
  | messageSendError
  | sendError
  | recvError
  | notSuccessResponse (header body : List Nat)
  | unknownTransactionId (their_id our_id : List Nat)
  | cannotParseEmptyBody
  | unexpectedEOF
  | emptyAttribute
deriving DecidableEq, Repr

/-- A Go slice into the receive buffer: underlying array, offset and length.
Go's `cap` is the room left in the underlying array past the offset. -/
structure GoSlice where
  buf : List Nat
  off : Nat
  len : Nat
deriving DecidableEq, Repr

/-- `cap(s)` for a slice of the receive buffer. -/
def GoSlice.cap (s : GoSlice) : Nat := s.buf.length - s.off

/-- `s[i]`: byte `i` of the slice (reads the underlying array; every access
made by the modelled code stays inside the 1280-byte buffer). -/
def GoSlice.get (s : GoSlice) (i : Nat) : Nat := s.buf.getD (s.off + i) 0

/-- `MAGIC_COOKIE = 0x2112A442` serialized big-endian, exactly the 4-byte
buffer `get_addr_XOR` builds with `binary.Write`. -/
def cookieBytes : List Nat := [0x21, 0x12, 0xA4, 0x42]

/-- `xor_bytes(one, two)`: XORs `one` in place against `two` over the first
`min(len(one), len(two))` bytes and returns `one`; bytes of `one` past the
end of `two` are unchanged. -/
def xor_bytes (one two : List Nat) : List Nat :=
  List.zipWith Nat.xor one two ++ one.drop two.length

/-- `get_addr(attribute)`: the MAPPED-ADDRESS payload parser. An empty value
is an error; fewer than 4 bytes make `binary.Read` fail with
`io.ErrUnexpectedEOF`; otherwise byte 0 (`Garbage`) and byte 1 (`Family`)
are read but never used, the port is bytes 2-3 big-endian, and the IP is
`attribute[4:]` taken verbatim. -/
def get_addr (attrVal : List Nat) : Except StunError (Option UDPAddr) :=
  if attrVal.length = 0 then .error .emptyAttribute
  else if attrVal.length < 4 then .error .unexpectedEOF
  else .ok (some ⟨attrVal.drop 4, 256 * attrVal.getD 2 0 + attrVal.getD 3 0⟩)

/-- `get_addr_XOR(attribute, transaction_id)`: the XOR-MAPPED-ADDRESS payload
parser. Empty / short values error as in `get_addr`; the port is bytes 2-3
big-endian XORed with `uint16(MAGIC_COOKIE >> 16) = 0x2112`; family `0x01`
XORs `attribute[4:]` against the 4 cookie bytes, family `0x02` against the
cookie bytes followed by the transaction id; any other family returns
neither an address nor an error (`return nil, nil`). -/
def get_addr_XOR (attrVal transaction_id : List Nat) :
    Except StunError (Option UDPAddr) :=
  if attrVal.length = 0 then .error .emptyAttribute
  else if attrVal.length < 4 then .error .unexpectedEOF
  else
    let port := Nat.xor (256 * attrVal.getD 2 0 + attrVal.getD 3 0) 0x2112
    let xaddress := attrVal.drop 4
    if attrVal.getD 1 0 = 0x01 then
      .ok (some ⟨xor_bytes xaddress cookieBytes, port⟩)
    else if attrVal.getD 1 0 = 0x02 then
      .ok (some ⟨xor_bytes xaddress (cookieBytes ++ transaction_id), port⟩)
    else .ok none

/-- Result of `getSingleAttribute`: a Go runtime panic, an error value, or
the attribute's type, declared length and value bytes. In the `ok` case the
Go function also returns `r = 4 + attr_len`, which is determined by
`attr_len` and therefore not stored; in the error cases it returns
`(0, 0, nil, 0, err)`. -/
inductive AttrResult
  | panic
  | err (e : StunError)
  | ok (attr_type : Nat) (attr_len : Nat) (value : List Nat)
deriving DecidableEq, Repr

/-- `getSingleAttribute(body)`. An empty body errors; a body of 1-3 bytes
makes `binary.Read` of the 4-byte type/length struct fail with
`io.ErrUnexpectedEOF`. `Attr_len` is an `int16`, so a declared length with
the high bit set is negative and `make([]byte, Attr_len)` panics. The value
copy `body[4 : 4+Attr_len]` is a two-index slice expression whose upper
bound is checked against `cap(body)`, not `len(body)`: within capacity it
silently reads the underlying receive buffer past `len(body)`, beyond
capacity it panics. -/
def getSingleAttribute (body : GoSlice) : AttrResult :=
  if body.len = 0 then .err .cannotParseEmptyBody
  else if body.len < 4 then .err .unexpectedEOF
  else
    let raw := 256 * body.get 2 + body.get 3
    if 0x8000 ≤ raw then .panic
    else if body.cap < 4 + raw then .panic
    else .ok (256 * body.get 0 + body.get 1) raw ((body.buf.drop (body.off + 4)).take raw)

/-- Outcome of `recvMessage` (and of the whole call): a Go runtime panic,
an error, or an address result — Go's `(*net.UDPAddr, error)` with a `nil`
error, where the address pointer itself may still be `nil` (`addr none`). -/
inductive DecodeResult
  | panic
  | err (e : StunError)
  | addr (a : Option UDPAddr)
deriving DecidableEq, Repr

/-- Lifts an address parser's `(*net.UDPAddr, error)` return into the
decoder's result (the Go code returns it unchanged). -/
def liftParse : Except StunError (Option UDPAddr) → DecodeResult
  | .error e => .err e
  | .ok a => .addr a

/-- The attribute loop of `recvMessage` (lines 265-303). Each iteration calls
`getSingleAttribute`, adds `r = 4 + attr_len` to `bytes_read`, reslices
`body = body[attr_size:]` — which panics when `attr_size > len(body)` and
which advances by the value length alone, not the full `4 + attr_size` TLV
size — and only then checks the error and dispatches on the attribute type,
returning the address parser's result directly for MAPPED-ADDRESS (0x0001)
and XOR-MAPPED-ADDRESS (0x0020) and continuing otherwise. Exhausting
`message_length` bytes returns `(nil, nil)`.

The recursion is structural on a fuel argument so that the definition
computes: every iteration that continues the loop adds at least 4 to
`bytesRead`, so with the fuel `attrWalk` supplies the zero-fuel case is
reached only when `bytesRead ≥ msgLen` already holds, where it returns the
loop's own exit value (`attrWalkGo_fuel` proves the fuel irrelevant from
that bound on). -/
def attrWalkGo (transaction_id : List Nat) (msgLen : Nat) :
    Nat → GoSlice → Nat → DecodeResult
  | 0, _, _ => .addr none
  | fuel + 1, body, bytesRead =>
    if bytesRead < msgLen then
      match getSingleAttribute body with
      | .panic => .panic
      | .err e => .err e
      | .ok t L value =>
        if L ≤ body.len then
          if t = 0x0001 then liftParse (get_addr value)
          else if t = 0x0020 then liftParse (get_addr_XOR value transaction_id)
          else attrWalkGo transaction_id msgLen fuel
            ⟨body.buf, body.off + L, body.len - L⟩ (bytesRead + (4 + L))
        else .panic
    else .addr none

/-- The attribute loop entered at `bytesRead` bytes consumed, with enough
fuel for the worst case of one iteration per remaining byte. -/
def attrWalk (transaction_id : List Nat) (msgLen : Nat) (body : GoSlice)
    (bytesRead : Nat) : DecodeResult :=
  attrWalkGo transaction_id msgLen (msgLen + 1 - bytesRead) body bytesRead

/-- The receive buffer `recvMessage` parses: `packet := make([]byte, 1280)`
is zero-initialized, `ReadFromUDP` fills in at most 1280 bytes of the
datagram, and the code never consults the byte count again — so the buffer
is the (truncated) datagram followed by zeros. -/
def packetOf (d : List Nat) : List Nat :=
  d.take 1280 ++ List.replicate (1280 - (d.take 1280).length) 0

/-- `Message_type`: bytes 0-1 big-endian of the buffer. -/
def hdrType (packet : List Nat) : Nat := 256 * packet.getD 0 0 + packet.getD 1 0

/-- `Message_length`: bytes 2-3 big-endian of the buffer. -/
def hdrLen (packet : List Nat) : Nat := 256 * packet.getD 2 0 + packet.getD 3 0

/-- `Magic_cookie`: bytes 4-7 big-endian of the buffer. -/
def hdrCookie (packet : List Nat) : Nat :=
  0x1000000 * packet.getD 4 0 + 0x10000 * packet.getD 5 0 +
    256 * packet.getD 6 0 + packet.getD 7 0

/-- `Transaction_id`: bytes 8-19 of the buffer. -/
def hdrTid (packet : List Nat) : List Nat := (packet.drop 8).take 12

/-- `recvMessage` after a successful read of datagram `d` (lines 222-304):
split the 1280-byte buffer into `header = packet[0:20]`, `body = packet[20:]`
(length 1260, capacity 1260); parse the header fields big-endian; reslice
`body = body[0:Message_length]`, which panics when the `int16` length is
negative (high bit set) or exceeds the capacity 1260; then the
success-response check, then the transaction-id comparison, then the
attribute walk. The parsed magic cookie is never validated. -/
def decodeModel (d transaction_id : List Nat) : DecodeResult :=
  let packet := packetOf d
  let ml := hdrLen packet
  if 0x8000 ≤ ml then .panic
  else if 1260 < ml then .panic
  else if hdrType packet ≠ 0x0101 then
    .err (.notSuccessResponse (packet.take 20) ((packet.drop 20).take ml))
  else if hdrTid packet ≠ transaction_id then
    .err (.unknownTransactionId (hdrTid packet) transaction_id)
  else attrWalk transaction_id ml ⟨packet, 20, ml⟩ 0

/-- Big-endian bytes of a 16-bit value, as `binary.Write` emits an `int16`. -/
def be16 (n : Nat) : List Nat := [n / 256 % 256, n % 256]

/-- Big-endian bytes of a 32-bit value, as `binary.Write` emits an `int32`. -/
def be32 (n : Nat) : List Nat :=
  [n / 0x1000000 % 256, n / 0x10000 % 256, n / 256 % 256, n % 256]

/-- `makeHeader(message_type, message_length, magic_cookie, transaction_id)`:
big-endian serialization into `type(2) | length(2) | cookie(4) | id` bytes.
`binary.Write` into a `bytes.Buffer` cannot fail for these fixed-size
values, so the `Make_Header_Error` branch is unreachable and the model is
total. The 16/32-bit arguments are the values' bit patterns. -/
def makeHeader (message_type message_length magic_cookie : Nat)
    (transaction_id : List Nat) : List Nat :=
  be16 message_type ++ be16 message_length ++ be32 magic_cookie ++ transaction_id

/-- `RequestRemoteIPAndPort(conn, server)` with the external world's outcomes
as parameters: whether `conn` / `server` are nil, what `crypto/rand.Read`
produced (`none` = read error), whether the UDP write and read succeeded,
and the datagram `d` the read delivered. A nil `conn` or `server` returns
`&Gen_Random_Error{}` (line 310) — the same error struct the entropy-failure
path returns — before the transaction id is generated or anything is sent.
On success the function passes `recvMessage`'s result through unchanged. -/
def requestModel (connNil serverNil : Bool) (randResult : Option (List Nat))
    (sendOk recvOk : Bool) (d : List Nat) : DecodeResult :=
  if connNil || serverNil then .err .genRandomError
  else
    match randResult with
    | none => .err .genRandomError
    | some tid =>
      if !sendOk then .err .sendError
      else if !recvOk then .err .recvError
      else decodeModel d tid

/-- Companion to `attrWalk` used to state when the walk "exhausts
`message_length` bytes without encountering an address attribute": it follows
the walk's exact branch structure and reports `some true` when the walk
reaches a MAPPED-ADDRESS or XOR-MAPPED-ADDRESS attribute, `some false` when
it exhausts `msgLen` bytes without one, and `none` when it aborts in a panic
or error. -/
def walkFindsGo (msgLen : Nat) : Nat → GoSlice → Nat → Option Bool
  | 0, _, _ => some false
  | fuel + 1, body, bytesRead =>
    if bytesRead < msgLen then
      match getSingleAttribute body with
      | .panic => none
      | .err _ => none
      | .ok t L _ =>
        if L ≤ body.len then
          if t = 0x0001 then some true
          else if t = 0x0020 then some true
          else walkFindsGo msgLen fuel ⟨body.buf, body.off + L, body.len - L⟩
            (bytesRead + (4 + L))
        else none
    else some false

/-- `walkFinds` entered at `bytesRead` bytes consumed, with the same fuel
discipline as `attrWalk`. -/
def walkFinds (msgLen : Nat) (body : GoSlice) (bytesRead : Nat) : Option Bool :=
  walkFindsGo msgLen (msgLen + 1 - bytesRead) body bytesRead

/-- XOR-MAPPED-ADDRESS encoding of an IPv4 address, as the round-trip claim
describes the server-side transform (this client only decodes): reserved
byte, family `0x01`, `port XOR 0x2112` big-endian, then the IP bytes XORed
byte-wise with the 4 magic-cookie bytes. -/
def encodeXorIPv4 (ip : List Nat) (port : Nat) : List Nat :=
  [0, 0x01] ++ be16 (Nat.xor port 0x2112) ++ List.zipWith Nat.xor ip cookieBytes

/-- XOR-MAPPED-ADDRESS encoding of an IPv6 address, per the round-trip
claim: family `0x02` and the 16 IP bytes XORed with the magic cookie
followed by the 12-byte transaction id. -/
def encodeXorIPv6 (ip : List Nat) (port : Nat) (transaction_id : List Nat) :
    List Nat :=
  [0, 0x02] ++ be16 (Nat.xor port 0x2112) ++
    List.zipWith Nat.xor ip (cookieBytes ++ transaction_id)

/-- Sample 12-byte transaction id for the concrete instances below. -/
def tid12 : List Nat := [0, 1, 2, 3, 4, 5, 6, 7, 8, 9, 10, 11]

/-- Success response, message length 20, transaction id `tid12`, whose body is
a USERNAME attribute (type 0x0006, declared length 4, all-zero value bytes)
immediately followed by a valid XOR-MAPPED-ADDRESS attribute (type 0x0020,
length 8) encoding IPv4 192.0.2.1 port 1: the port bytes are
`1 XOR 0x2112 = 0x2113` and the IP bytes are `192.0.2.1` XORed with the
magic-cookie bytes. -/
def usernameThenXorResponse : List Nat :=
  [0x01, 0x01, 0x00, 0x14, 0x21, 0x12, 0xA4, 0x42] ++ tid12 ++
    [0x00, 0x06, 0x00, 0x04, 0, 0, 0, 0] ++
    [0x00, 0x20, 0x00, 0x08, 0x00, 0x01, 0x21, 0x13, 0xE1, 0x12, 0xA6, 0x43]

/-- The same XOR-MAPPED-ADDRESS attribute alone (message length 12). -/
def xorOnlyResponse : List Nat :=
  [0x01, 0x01, 0x00, 0x0C, 0x21, 0x12, 0xA4, 0x42] ++ tid12 ++
    [0x00, 0x20, 0x00, 0x08, 0x00, 0x01, 0x21, 0x13, 0xE1, 0x12, 0xA6, 0x43]

/-- Success response, message length 8, transaction id `tid12`, whose single
attribute declares value length 0x64 = 100 although only 4 body bytes remain
after its type/length. -/
def truncatedAttrResponse : List Nat :=
  [0x01, 0x01, 0x00, 0x08, 0x21, 0x12, 0xA4, 0x42] ++ tid12 ++
    [0x00, 0x06, 0x00, 0x64, 0, 0, 0, 0]

/-- A 2-byte datagram carrying only the Binding Success Response code. -/
def twoByteDatagram : List Nat := [0x01, 0x01]

/-- Success response, message length 0, whose transaction id (12 bytes of
0x05) differs from `tid12`. -/
def mismatchedIdResponse : List Nat :=
  [0x01, 0x01, 0x00, 0x00, 0x21, 0x12, 0xA4, 0x42] ++ List.replicate 12 5

/-- Success response, matching id, whose single USERNAME attribute exhausts
the 8 declared body bytes: no address attribute anywhere in the walk. -/
def usernameOnlyResponse : List Nat :=
  [0x01, 0x01, 0x00, 0x08, 0x21, 0x12, 0xA4, 0x42] ++ tid12 ++
    [0x00, 0x06, 0x00, 0x04, 9, 9, 9, 9]

/-- Success response, matching id, whose single attribute is a
MAPPED-ADDRESS with declared length 0 (empty value). -/
def emptyMappedAddrResponse : List Nat :=
  [0x01, 0x01, 0x00, 0x04, 0x21, 0x12, 0xA4, 0x42] ++ tid12 ++
    [0x00, 0x01, 0x00, 0x00]

/-- Cancellation of a byte-wise XOR: reversing the transform recovers the
original byte. -/
theorem xor_xor_cancel (a b : Nat) : Nat.xor (Nat.xor a b) b = a :=
  Nat.xor_cancel_right b a

/-- Zipping a list twice with the same XOR mask recovers the list when the
mask is at least as long. -/
theorem zipWith_xor_cancel (one two : List Nat) (h : one.length ≤ two.length) :
    List.zipWith Nat.xor (List.zipWith Nat.xor one two) two = one := by
  induction one generalizing two with
  | nil => simp
  | cons a one ih =>
    cases two with
    | nil => simp at h
    | cons b two =>
      simp only [List.zipWith_cons_cons, xor_xor_cancel]
      rw [ih two (by simpa using h)]

/-- Applying `xor_bytes` to an already-masked list with the same mask
recovers the original list when the mask is at least as long. -/
theorem xor_bytes_zipWith_cancel (one two : List Nat) (h : one.length ≤ two.length) :
    xor_bytes (List.zipWith Nat.xor one two) two = one := by
  rw [xor_bytes, List.drop_eq_nil_of_le (by simp only [List.length_zipWith]; omega),
    List.append_nil]
  exact zipWith_xor_cancel one two h

/-- Fuel irrelevance for the attribute loop: any two fuels at least as large
as the remaining declared bytes give the same result, so the fuel chosen by
`attrWalk` is as good as unbounded iteration of the source loop. -/
theorem attrWalkGo_fuel (transaction_id : List Nat) (msgLen : Nat) (f1 f2 : Nat)
    (body : GoSlice) (bytesRead : Nat) (h1 : msgLen ≤ bytesRead + f1)
    (h2 : msgLen ≤ bytesRead + f2) :
    attrWalkGo transaction_id msgLen f1 body bytesRead =
      attrWalkGo transaction_id msgLen f2 body bytesRead := by
  induction f1 generalizing f2 body bytesRead with
  | zero =>
    have hbr : ¬ bytesRead < msgLen := by omega
    cases f2 with
    | zero => rfl
    | succ g => simp [attrWalkGo, hbr]
  | succ f ih =>
    cases f2 with
    | zero =>
      have hbr : ¬ bytesRead < msgLen := by omega
      simp [attrWalkGo, hbr]
    | succ g =>
      unfold attrWalkGo
      by_cases hbr : bytesRead < msgLen
      · simp only [if_pos hbr]
        cases getSingleAttribute body with
        | panic => rfl
        | err e => rfl
        | ok t L v =>
          by_cases hL : L ≤ body.len
          · simp only [if_pos hL]
            by_cases ht1 : t = 0x0001
            · simp [ht1]
            · by_cases ht2 : t = 0x0020
              · simp [ht1, ht2]
              · simp only [if_neg ht1, if_neg ht2]
                exact ih g _ _ (by omega) (by omega)
          · simp [hL]
      · simp [hbr]

/-- When the companion walk exhausts the declared bytes without reaching an
address attribute, the attribute loop returns success with no address. -/
theorem walkFindsGo_false_attrWalkGo (transaction_id : List Nat) (msgLen fuel : Nat)
    (body : GoSlice) (bytesRead : Nat)
    (h : walkFindsGo msgLen fuel body bytesRead = some false) :
    attrWalkGo transaction_id msgLen fuel body bytesRead = .addr none := by
  induction fuel generalizing body bytesRead with
  | zero => rfl
  | succ f ih =>
    unfold walkFindsGo at h
    unfold attrWalkGo
    by_cases hbr : bytesRead < msgLen
    · simp only [if_pos hbr] at h ⊢
      cases hga : getSingleAttribute body with
      | panic => rw [hga] at h; simp at h
      | err e => rw [hga] at h; simp at h
      | ok t L v =>
        rw [hga] at h
        dsimp only at h ⊢
        by_cases hL : L ≤ body.len
        · simp only [if_pos hL] at h ⊢
          by_cases ht1 : t = 0x0001
          · simp [ht1] at h
          · by_cases ht2 : t = 0x0020
            · simp [ht1, ht2] at h
            · simp only [if_neg ht1, if_neg ht2] at h ⊢
              exact ih _ _ h
        · simp [hL] at h
    · simp [hbr]

/-- Evaluation of `get_addr_XOR` on an attribute value given with its four
leading bytes explicit. -/
theorem get_addr_XOR_cons (g f b2 b3 : Nat) (rest transaction_id : List Nat) :
    get_addr_XOR (g :: f :: b2 :: b3 :: rest) transaction_id =
      (if f = 0x01 then
        .ok (some ⟨xor_bytes rest cookieBytes, Nat.xor (256 * b2 + b3) 0x2112⟩)
       else if f = 0x02 then
        .ok (some ⟨xor_bytes rest (cookieBytes ++ transaction_id),
          Nat.xor (256 * b2 + b3) 0x2112⟩)
       else .ok none) := by
  simp [get_addr_XOR, List.getD]

/-- C1: REFUTED on the code (code bug) — attribute skipping does not
preserve TLV alignment. The loop advances the body slice by the declared
value length alone (`body = body[attr_size:]`, `StunClient.go:270`) while
counting `r = 4 + attr_len` consumed bytes, so after skipping a USERNAME
attribute it resumes reading 4 bytes early, inside the skipped value. On a
success response carrying USERNAME (length 4, zero value) followed by a
valid XOR-MAPPED-ADDRESS for 192.0.2.1:1, the decoder returns success with
no address instead of resolving the address; the second conjunct shows the
very same XOR-MAPPED-ADDRESS attribute decodes correctly when it comes
first, isolating the misaligned skip as the cause. -/
theorem c1_username_skip_misaligns_walk :
    decodeModel usernameThenXorResponse tid12 = .addr none ∧
    decodeModel xorOnlyResponse tid12 = .addr (some ⟨[192, 0, 2, 1], 1⟩) := by
  constructor <;> decide

/-- C2 (counterexample): on a success response whose attribute declares
value length 100 with only 8 body bytes, the decoder panics (Go slice-bounds
panic at the `body[attr_size:]` reslice), and does not fail with an
attribute-parse error as the claim states. -/
theorem c2_truncated_attribute_counterexample :
    decodeModel truncatedAttrResponse tid12 = .panic := by decide

/-- C2 (amended): whenever the attribute walk meets an attribute whose
declared length exceeds the remaining body bytes (with at least the 4
type/length bytes present), the result is a Go runtime panic — from
`make([]byte, Attr_len)` on a negative `int16` length, from the
`body[4:4+Attr_len]` copy exceeding the buffer capacity, or from the
`body[attr_size:]` reslice exceeding the body length — never an
`AttributeParseError`. No access outside the 1280-byte buffer occurs: Go's
bounds checks panic first. -/
theorem c2_truncated_attribute_panics (transaction_id : List Nat) (msgLen : Nat)
    (body : GoSlice) (bytesRead : Nat) (hbr : bytesRead < msgLen)
    (h4 : 4 ≤ body.len) (hlen : body.len < 256 * body.get 2 + body.get 3) :
    attrWalk transaction_id msgLen body bytesRead = .panic := by
  obtain ⟨f, hf⟩ : ∃ f, msgLen + 1 - bytesRead = f + 1 := ⟨msgLen - bytesRead, by omega⟩
  rw [attrWalk, hf]
  have h0 : ¬ body.len = 0 := by omega
  have h14 : ¬ body.len < 4 := by omega
  by_cases hbig : 0x8000 ≤ 256 * body.get 2 + body.get 3
  · simp [attrWalkGo, hbr, getSingleAttribute, h0, h14, hbig]
  · by_cases hcap : body.cap < 4 + (256 * body.get 2 + body.get 3)
    · simp [attrWalkGo, hbr, getSingleAttribute, h0, h14, hbig, hcap]
    · simp [attrWalkGo, hbr, getSingleAttribute, h0, h14, hbig, hcap,
        show ¬ (256 * body.get 2 + body.get 3 ≤ body.len) from by omega]

/-- C2 witness: the amended statement applied at the walk state the
truncated-attribute response reaches. -/
theorem c2_truncated_attribute_panics_witness :
    attrWalk tid12 8 ⟨packetOf truncatedAttrResponse, 20, 8⟩ 0 = .panic :=
  c2_truncated_attribute_panics tid12 8 ⟨packetOf truncatedAttrResponse, 20, 8⟩ 0
    (by decide) (by decide) (by decide)

/-- C3 (counterexample): decoding a 2-byte datagram does not fail with an
attribute-parse error — with an all-zero expected transaction id it returns
success with no address, because the zero-initialized receive buffer
supplies the missing 18 header bytes as zeros. -/
theorem c3_short_datagram_counterexample :
    decodeModel twoByteDatagram (List.replicate 12 0) = .addr none := by decide

/-- C3 (amended): the decoder never checks the received byte count and never
splits off the header conditionally: a datagram shorter than 20 bytes is
processed exactly as if zero-padded to the 20-byte header, because the
1280-byte buffer is zero-initialized; no `AttributeParseError` arises from
the short length. -/
theorem c3_short_datagram_zero_padded (d transaction_id : List Nat)
    (h : d.length < 20) :
    decodeModel d transaction_id =
      decodeModel (d ++ List.replicate (20 - d.length) 0) transaction_id := by
  have ha : List.take 1280 (d ++ List.replicate (20 - d.length) 0) =
      d ++ List.replicate (20 - d.length) 0 :=
    List.take_of_length_le
      (by simp only [List.length_append, List.length_replicate]; omega)
  have hb : List.take 1280 d = d := List.take_of_length_le (by omega)
  have h1 : packetOf (d ++ List.replicate (20 - d.length) 0) = packetOf d := by
    unfold packetOf
    rw [ha, hb, List.append_assoc, ← List.replicate_add]
    have hk : (20 - d.length) +
        (1280 - (d ++ List.replicate (20 - d.length) 0).length) =
        1280 - d.length := by
      simp only [List.length_append, List.length_replicate]
      omega
    rw [hk]
  simp only [decodeModel, h1]

/-- C3 witness: a 2-byte datagram (here the error-response code 0x0110)
decodes exactly as its zero-padding to 20 bytes. -/
theorem c3_short_datagram_zero_padded_witness :
    decodeModel [0x01, 0x10] tid12 =
      decodeModel ([0x01, 0x10] ++ List.replicate 18 0) tid12 :=
  c3_short_datagram_zero_padded [0x01, 0x10] tid12 (by decide)

/-- C4: XOR-MAPPED-ADDRESS round-trip. For any 12-byte transaction id, any
16-bit port and any 4-byte (family 0x01) or 16-byte (family 0x02) IP,
encoding per the claim (port XOR 0x2112; IP XORed byte-wise with the 4
cookie bytes, or with cookie ++ id for IPv6) and decoding with
`get_addr_XOR` and the same transaction id recovers the original IP bytes
and port; the family byte selects the corresponding branch (the decoded
`net.UDPAddr` carries no family field of its own). -/
theorem c4_xor_mapped_address_roundtrip (transaction_id ip4 ip6 : List Nat)
    (port : Nat) (htid : transaction_id.length = 12) (h4 : ip4.length = 4)
    (h6 : ip6.length = 16) (hport : port < 0x10000) :
    get_addr_XOR (encodeXorIPv4 ip4 port) transaction_id = .ok (some ⟨ip4, port⟩) ∧
    get_addr_XOR (encodeXorIPv6 ip6 port transaction_id) transaction_id =
      .ok (some ⟨ip6, port⟩) := by
  have hxp : Nat.xor port 0x2112 < 0x10000 := by
    have h16 : (0x10000 : Nat) = 2 ^ 16 := by norm_num
    rw [h16] at hport ⊢
    exact Nat.xor_lt_two_pow hport (by norm_num)
  have hb : 256 * (Nat.xor port 0x2112 / 256 % 256) + Nat.xor port 0x2112 % 256 =
      Nat.xor port 0x2112 := by omega
  constructor
  · have e1 : encodeXorIPv4 ip4 port =
        0 :: 0x01 :: (Nat.xor port 0x2112 / 256 % 256) ::
          (Nat.xor port 0x2112 % 256) :: List.zipWith Nat.xor ip4 cookieBytes := rfl
    rw [e1, get_addr_XOR_cons, if_pos rfl,
      xor_bytes_zipWith_cancel ip4 cookieBytes (by simp [cookieBytes, h4]), hb,
      xor_xor_cancel]
  · have e2 : encodeXorIPv6 ip6 port transaction_id =
        0 :: 0x02 :: (Nat.xor port 0x2112 / 256 % 256) ::
          (Nat.xor port 0x2112 % 256) ::
          List.zipWith Nat.xor ip6 (cookieBytes ++ transaction_id) := rfl
    rw [e2, get_addr_XOR_cons, if_neg (by norm_num), if_pos rfl,
      xor_bytes_zipWith_cancel ip6 (cookieBytes ++ transaction_id)
        (by simp [cookieBytes, h6, htid]), hb, xor_xor_cancel]

/-- C4 witness: round-trip at IPv4 192.0.2.1:3478 and at an explicit
16-byte IPv6 address, with transaction id `tid12`. -/
theorem c4_xor_mapped_address_roundtrip_witness :
    get_addr_XOR (encodeXorIPv4 [192, 0, 2, 1] 3478) tid12 =
      .ok (some ⟨[192, 0, 2, 1], 3478⟩) ∧
    get_addr_XOR
        (encodeXorIPv6 [0, 1, 2, 3, 4, 5, 6, 7, 8, 9, 10, 11, 12, 13, 14, 15]
          3478 tid12) tid12 =
      .ok (some ⟨[0, 1, 2, 3, 4, 5, 6, 7, 8, 9, 10, 11, 12, 13, 14, 15], 3478⟩) :=
  c4_xor_mapped_address_roundtrip tid12 [192, 0, 2, 1]
    [0, 1, 2, 3, 4, 5, 6, 7, 8, 9, 10, 11, 12, 13, 14, 15] 3478
    (by decide) (by decide) (by decide) (by decide)

/-- C5: the message-type check precedes the transaction-id check. For any
datagram whose parsed message length survives the `body[0:Message_length]`
reslice (below 0x8000 and at most the capacity 1260) and whose parsed
transaction id differs from the expected one: (a) if the parsed type is the
success code 0x0101 the decode fails with `UnknownTransactionId` carrying
the received and the expected id, never resolving an address; (b) if the
parsed type is not 0x0101 it fails with `NotSuccessResponse` (carrying the
raw header and truncated body), not `UnknownTransactionId`. -/
theorem c5_type_check_precedes_id_check (d transaction_id : List Nat)
    (hml1 : hdrLen (packetOf d) < 0x8000) (hml2 : hdrLen (packetOf d) ≤ 1260)
    (htid : hdrTid (packetOf d) ≠ transaction_id) :
    (hdrType (packetOf d) = 0x0101 →
      decodeModel d transaction_id =
        .err (.unknownTransactionId (hdrTid (packetOf d)) transaction_id)) ∧
    (hdrType (packetOf d) ≠ 0x0101 →
      decodeModel d transaction_id =
        .err (.notSuccessResponse ((packetOf d).take 20)
          (((packetOf d).drop 20).take (hdrLen (packetOf d))))) := by
  constructor <;> intro ht <;>
    simp only [decodeModel,
      if_neg (show ¬ 0x8000 ≤ hdrLen (packetOf d) from by omega),
      if_neg (show ¬ 1260 < hdrLen (packetOf d) from by omega)]
  · rw [if_neg (show ¬ hdrType (packetOf d) ≠ 0x0101 from by simpa using ht),
      if_pos htid]
  · rw [if_pos ht]

/-- C5 witness: a success response whose transaction id (12 bytes of 0x05)
differs from the expected `tid12` fails with `UnknownTransactionId`. -/
theorem c5_type_check_precedes_id_check_witness :
    (hdrType (packetOf mismatchedIdResponse) = 0x0101 →
      decodeModel mismatchedIdResponse tid12 =
        .err (.unknownTransactionId (hdrTid (packetOf mismatchedIdResponse)) tid12)) ∧
    (hdrType (packetOf mismatchedIdResponse) ≠ 0x0101 →
      decodeModel mismatchedIdResponse tid12 =
        .err (.notSuccessResponse ((packetOf mismatchedIdResponse).take 20)
          (((packetOf mismatchedIdResponse).drop 20).take
            (hdrLen (packetOf mismatchedIdResponse))))) :=
  c5_type_check_precedes_id_check mismatchedIdResponse tid12
    (by decide) (by decide) (by decide)

/-- C6: header round-trip. For every 16-bit message type and length bit
pattern, 32-bit cookie bit pattern and 12-byte transaction id, serializing
with `makeHeader` (big-endian `type(2) | length(2) | cookie(4) | id(12)`)
and parsing with the decoder's header field readers reproduces all four
fields exactly. -/
theorem c6_header_roundtrip (mt ml cookie : Nat) (transaction_id : List Nat)
    (hmt : mt < 0x10000) (hml : ml < 0x10000) (hck : cookie < 0x100000000)
    (htid : transaction_id.length = 12) :
    hdrType (makeHeader mt ml cookie transaction_id) = mt ∧
    hdrLen (makeHeader mt ml cookie transaction_id) = ml ∧
    hdrCookie (makeHeader mt ml cookie transaction_id) = cookie ∧
    hdrTid (makeHeader mt ml cookie transaction_id) = transaction_id := by
  refine ⟨?_, ?_, ?_, ?_⟩
  · show 256 * (mt / 256 % 256) + mt % 256 = mt
    omega
  · show 256 * (ml / 256 % 256) + ml % 256 = ml
    omega
  · show 0x1000000 * (cookie / 0x1000000 % 256) + 0x10000 * (cookie / 0x10000 % 256) +
      256 * (cookie / 256 % 256) + cookie % 256 = cookie
    omega
  · show List.take 12 transaction_id = transaction_id
    rw [← htid]
    exact List.take_length transaction_id

/-- C6 witness: round-trip of the Binding Request header the client sends
(type 0x0001, length 0, the magic cookie, transaction id `tid12`). -/
theorem c6_header_roundtrip_witness :
    hdrType (makeHeader 0x0001 0 0x2112A442 tid12) = 0x0001 ∧
    hdrLen (makeHeader 0x0001 0 0x2112A442 tid12) = 0 ∧
    hdrCookie (makeHeader 0x0001 0 0x2112A442 tid12) = 0x2112A442 ∧
    hdrTid (makeHeader 0x0001 0 0x2112A442 tid12) = tid12 :=
  c6_header_roundtrip 0x0001 0 0x2112A442 tid12
    (by decide) (by decide) (by decide) (by decide)

/-- C7 (counterexample): the MAPPED-ADDRESS parser does not return a silent
null for an unsupported family — it never looks at the family byte. On a
value with family byte 7 it returns an address (IP taken from byte 4 on,
port 0x3039 = 12345), contradicting the claim that both parsers return
neither an error nor an address. -/
theorem c7_mapped_address_family_counterexample :
    get_addr [0, 7, 0x30, 0x39, 1, 2, 3, 4] = .ok (some ⟨[1, 2, 3, 4], 12345⟩) := rfl

/-- C7 (amended): for an attribute value of at least 4 bytes whose family
byte is neither 0x01 nor 0x02, only `get_addr_XOR` returns the silent null
(no error, no address); `get_addr` ignores the family byte entirely and
returns an address made of bytes 4 onward and the unobfuscated big-endian
port from bytes 2-3. -/
theorem c7_unsupported_family_split (attrVal transaction_id : List Nat)
    (h4 : 4 ≤ attrVal.length) (hf1 : attrVal.getD 1 0 ≠ 0x01)
    (hf2 : attrVal.getD 1 0 ≠ 0x02) :
    get_addr_XOR attrVal transaction_id = .ok none ∧
    get_addr attrVal =
      .ok (some ⟨attrVal.drop 4, 256 * attrVal.getD 2 0 + attrVal.getD 3 0⟩) := by
  constructor
  · simp only [get_addr_XOR, if_neg (show ¬ attrVal.length = 0 from by omega),
      if_neg (show ¬ attrVal.length < 4 from by omega), if_neg hf1, if_neg hf2]
  · simp only [get_addr, if_neg (show ¬ attrVal.length = 0 from by omega),
      if_neg (show ¬ attrVal.length < 4 from by omega)]

/-- C7 witness: the amended statement at family byte 9. -/
theorem c7_unsupported_family_split_witness :
    get_addr_XOR [0, 9, 1, 2, 3] tid12 = .ok none ∧
    get_addr [0, 9, 1, 2, 3] = .ok (some ⟨[3], 258⟩) :=
  c7_unsupported_family_split [0, 9, 1, 2, 3] tid12 (by decide) (by decide) (by decide)

/-- C8: no-address success. For every datagram that passes the length,
success-type and transaction-id checks and whose attribute walk exhausts
`message_length` bytes without reaching a MAPPED-ADDRESS or
XOR-MAPPED-ADDRESS attribute (the `walkFinds` companion returns
`some false`), the decode returns success with no address, and so does the
public `RequestRemoteIPAndPort` call built on it. -/
theorem c8_no_address_attribute_success (d transaction_id : List Nat)
    (hml1 : hdrLen (packetOf d) < 0x8000) (hml2 : hdrLen (packetOf d) ≤ 1260)
    (hmt : hdrType (packetOf d) = 0x0101)
    (htid : hdrTid (packetOf d) = transaction_id)
    (hwalk : walkFinds (hdrLen (packetOf d)) ⟨packetOf d, 20, hdrLen (packetOf d)⟩ 0 =
      some false) :
    decodeModel d transaction_id = .addr none ∧
    requestModel false false (some transaction_id) true true d = .addr none := by
  have hdec : decodeModel d transaction_id = .addr none := by
    simp only [decodeModel,
      if_neg (show ¬ 0x8000 ≤ hdrLen (packetOf d) from by omega),
      if_neg (show ¬ 1260 < hdrLen (packetOf d) from by omega),
      if_neg (show ¬ hdrType (packetOf d) ≠ 0x0101 from by simpa using hmt),
      if_neg (show ¬ hdrTid (packetOf d) ≠ transaction_id from by simpa using htid)]
    exact walkFindsGo_false_attrWalkGo transaction_id _ _ _ _ hwalk
  exact ⟨hdec, hdec⟩

/-- C8 witness: a success response whose single USERNAME attribute exhausts
the declared 8 body bytes decodes — and completes the public call — with no
address and no error. -/
theorem c8_no_address_attribute_success_witness :
    decodeModel usernameOnlyResponse tid12 = .addr none ∧
    requestModel false false (some tid12) true true usernameOnlyResponse = .addr none :=
  c8_no_address_attribute_success usernameOnlyResponse tid12
    (by decide) (by decide) (by decide) (by decide) (by decide)

/-- C9 (counterexample): a nil socket does not fail with a distinct
configuration error kind — `RequestRemoteIPAndPort` returns the very
`Gen_Random_Error` value that the entropy-failure path returns (the first
conjunct is the nil-socket call with working entropy, the second the
non-nil call whose entropy read fails; both produce the same error). -/
theorem c9_nil_config_error_counterexample :
    requestModel true false (some tid12) true true [] = .err .genRandomError ∧
    requestModel false false none true true [] = .err .genRandomError := by
  constructor <;> rfl

/-- C9 (amended): for every call with a nil socket or nil server address the
public operation fails immediately with `Gen_Random_Error` — the same error
kind the entropy-failure path uses, there being no distinct configuration
error in the code — independently of the entropy result, the transport
outcomes and the datagram, i.e. before any transaction id is used or any
byte is sent. -/
theorem c9_nil_config_gen_random_error (connNil serverNil : Bool)
    (randResult : Option (List Nat)) (sendOk recvOk : Bool) (d : List Nat)
    (h : connNil = true ∨ serverNil = true) :
    requestModel connNil serverNil randResult sendOk recvOk d =
      .err .genRandomError := by
  rcases h with h | h <;> subst h <;> simp [requestModel]

/-- C9 witness: the amended statement with both handles nil. -/
theorem c9_nil_config_gen_random_error_witness :
    requestModel true true (some tid12) true true twoByteDatagram =
      .err .genRandomError :=
  c9_nil_config_gen_random_error true true (some tid12) true true twoByteDatagram
    (Or.inl rfl)

/-- C10: an empty address-attribute value makes both parsers return the
`Empty attribute recieved` error and no address, and when the attribute walk
dispatches a MAPPED-ADDRESS or XOR-MAPPED-ADDRESS attribute of declared
length 0 it aborts the decode with that error instead of falling through to
the silent no-address success. -/
theorem c10_empty_address_attribute_errors (transaction_id : List Nat) (msgLen : Nat)
    (body : GoSlice) (bytesRead : Nat) (hbr : bytesRead < msgLen)
    (h4 : 4 ≤ body.len) (hwf : body.off + body.len ≤ body.buf.length)
    (ht : 256 * body.get 0 + body.get 1 = 0x0001 ∨
      256 * body.get 0 + body.get 1 = 0x0020)
    (hL : 256 * body.get 2 + body.get 3 = 0) :
    get_addr [] = .error .emptyAttribute ∧
    get_addr_XOR [] transaction_id = .error .emptyAttribute ∧
    attrWalk transaction_id msgLen body bytesRead = .err .emptyAttribute := by
  refine ⟨rfl, rfl, ?_⟩
  obtain ⟨f, hf⟩ : ∃ f, msgLen + 1 - bytesRead = f + 1 := ⟨msgLen - bytesRead, by omega⟩
  rw [attrWalk, hf]
  have hcap : ¬ GoSlice.cap body < 4 := by
    simp only [GoSlice.cap]; omega
  rcases ht with ht | ht <;>
    simp [attrWalkGo, hbr, getSingleAttribute,
      show ¬ body.len = 0 from by omega, show ¬ body.len < 4 from by omega,
      hcap, hL, ht, liftParse, get_addr, get_addr_XOR]

/-- C10 witness: the empty-valued MAPPED-ADDRESS response aborts its walk
with the empty-attribute error. -/
theorem c10_empty_address_attribute_errors_witness :
    get_addr [] = .error .emptyAttribute ∧
    get_addr_XOR [] tid12 = .error .emptyAttribute ∧
    attrWalk tid12 4 ⟨packetOf emptyMappedAddrResponse, 20, 4⟩ 0 =
      .err .emptyAttribute :=
  c10_empty_address_attribute_errors tid12 4
    ⟨packetOf emptyMappedAddrResponse, 20, 4⟩ 0
    (by decide) (by decide) (by decide) (by decide) (by decide)

end StunC
